import Mathlib

/-!
Verification of the weather-workstation IoT pipeline against its design
specification.  The repository has two Python scripts:

* `backend.py` — the live pipeline: serial reader → queue → data processor →
  CSV persistence + MQTT publisher, with `calibrate`/`convert_values` doing
  the raw-ADC-to-engineering-unit conversion.
* `tempCodeRunnerFile.py` — the simulated pipeline: random sensors → queue →
  data processor with threshold checking (`check_threshold`, `THRESHOLDS`).

The development below is a shallow embedding: each Python function that the
claims mention is translated to an executable Lean definition; exceptions
are modelled with `Except`, Python `None` with `Option`, floats with `ℚ`
(exact rationals — for every value this code rounds, the fractional part of
`100 * value` is never exactly 1/2 and is at distance ≥ 1/2046 from it, far
beyond double-precision error, so the rational model agrees with Python's
float `round`).
-/

deriving instance DecidableEq for Except

namespace Backend

/-- A raw channel value as it arrives from JSON: either something `int()`
accepts (modelled by its integer value) or something on which `int()`
raises (strings like `"abc"`, `None`, …). -/
inductive RawField where
  | num (n : ℤ)
  | nonNum
deriving DecidableEq, Repr

/-- Python exceptions that can escape `convert_values`:
`KeyError` from `data[...]` on an absent key, `TypeError` from
`None / 1023` when `calibrate` returned `None`. -/
inductive PyError where
  | keyError
  | typeError
deriving DecidableEq, Repr

/-- The clamping steps of `calibrate`: `if r < 0: r = 0` then
`if r > 1023: r = 1023`, in the source's order. -/
def pyClamp (n : ℤ) : ℤ :=
  let r := if n < 0 then 0 else n
  if r > 1023 then 1023 else r

/-- Embedding of `backend.py`'s `calibrate(raw)`:
`int(raw)` (→ `none` when it raises), then clamp into `[0, 1023]`. -/
def calibrate : RawField → Option ℤ
  | .nonNum => none
  | .num n => some (pyClamp n)

/-- Python's `round(x, 2)` on the exact rational value: round `100 * x` to
the nearest integer and divide back.  (Tie-breaking conventions never
matter for the values this program rounds; see the file header.)
Stated with `Rat.floor` so that it evaluates by kernel reduction. -/
def round2 (q : ℚ) : ℚ := ((q * 100 + 1/2).floor : ℚ) / 100

/-- One entry of the dict literal in `convert_values`:
`round((r / 1023) * k, 2)`, raising `TypeError` when `calibrate`
returned `None` (Python evaluates `None / 1023`). -/
def scale (r : Option ℤ) (k : ℚ) : Except PyError ℚ :=
  match r with
  | none => .error .typeError
  | some v => .ok (round2 ((v : ℚ) / 1023 * k))

/-- A raw snapshot as `convert_values` sees it: the seven channel keys it
indexes, each either present (`some`) or absent from the dict (`none`). -/
structure RawData where
  oxygen : Option RawField
  uv : Option RawField
  pressure : Option RawField
  solar : Option RawField
  temp_humidity : Option RawField
  co2 : Option RawField
  air_quality : Option RawField
deriving DecidableEq, Repr

/-- `data["channel"]`: raises `KeyError` when the key is absent. -/
def getField : Option RawField → Except PyError RawField
  | none => .error .keyError
  | some f => .ok f

/-- The calibrated reading `convert_values` returns, one field per key of
its dict literal. -/
structure Calibrated where
  temperature : ℚ
  humidity : ℚ
  co2 : ℚ
  oxygen : ℚ
  uvIndex : ℚ
  solarRadiation : ℚ
  airQuality : ℚ
  gsr : ℚ
  atmosphericPressure : ℚ
deriving DecidableEq, Repr

/-- Embedding of `backend.py`'s `convert_values(data)`: look up the seven
channels (in source order), `calibrate` each, then build the dict in its
literal order.  `GSR` and `Solar Radiation` both use the `solar`
calibration, exactly as in the source. -/
def convert_values (data : RawData) : Except PyError Calibrated := do
  let oxy := calibrate (← getField data.oxygen)
  let uv := calibrate (← getField data.uv)
  let pres := calibrate (← getField data.pressure)
  let solar := calibrate (← getField data.solar)
  let th := calibrate (← getField data.temp_humidity)
  let co2 := calibrate (← getField data.co2)
  let aq := calibrate (← getField data.air_quality)
  let temperature ← scale th 50
  let humidity ← scale th 100
  let co2v ← scale co2 2000
  let oxygenv ← scale oxy 21
  let uvIndex ← scale uv 11
  let solarRadiation ← scale solar 1200
  let airQuality ← scale aq 500
  let gsr ← scale solar 100
  let atmosphericPressure ← scale pres 1100
  return ⟨temperature, humidity, co2v, oxygenv, uvIndex, solarRadiation,
          airQuality, gsr, atmosphericPressure⟩

/-- The snapshot the spec's end-to-end scenario injects. -/
def c1_input : RawData :=
  ⟨some (.num 512), some (.num 93), some (.num 465), some (.num 850),
   some (.num 700), some (.num 300), some (.num 100)⟩

/-- What `convert_values` actually returns on `c1_input`. -/
def c1_actual : Calibrated :=
  ⟨3421/100, 6843/100, 58651/100, 1051/100, 1, 99707/100, 4888/100,
   8309/100, 500⟩

/-- The reading the spec's end-to-end scenario claims. -/
def c1_claimed : Calibrated :=
  ⟨3421/100, 6843/100, 58612/100, 1051/100, 1, 99609/100, 4888/100,
   8301/100, 49976/100⟩

/-- The scenario snapshot with a non-numeric `oxygen` value (e.g. the
Arduino sent `{"oxygen": "abc", ...}`). -/
def c2_nonnum_input : RawData :=
  ⟨some .nonNum, some (.num 93), some (.num 465), some (.num 850),
   some (.num 700), some (.num 300), some (.num 100)⟩

/-- The scenario snapshot with the `oxygen` key absent altogether. -/
def c2_absent_input : RawData :=
  ⟨none, some (.num 93), some (.num 465), some (.num 850),
   some (.num 700), some (.num 300), some (.num 100)⟩

/-- An all-zero snapshot (first into the queue in the burst scenario). -/
def burst_first : RawData :=
  ⟨some (.num 0), some (.num 0), some (.num 0), some (.num 0),
   some (.num 0), some (.num 0), some (.num 0)⟩

/-- An all-1023 snapshot (last into the queue in the burst scenario). -/
def burst_last : RawData :=
  ⟨some (.num 1023), some (.num 1023), some (.num 1023), some (.num 1023),
   some (.num 1023), some (.num 1023), some (.num 1023)⟩

/-- A snapshot whose `solar` channel reads 1 and every other channel 0. -/
def solar_one_input : RawData :=
  ⟨some (.num 0), some (.num 0), some (.num 0), some (.num 1),
   some (.num 0), some (.num 0), some (.num 0)⟩

/-- The reading `convert_values` produces on `solar_one_input`. -/
def solar_one_output : Calibrated := ⟨0, 0, 0, 0, 0, 117/100, 0, 1/10, 0⟩

/-- The observable state of `backend.py`'s `MQTTClient`: the `connected`
flag, set in `__init__` to `False`, mutated only by the two callbacks. -/
structure MQTTState where
  connected : Bool
deriving DecidableEq, Repr

/-- Side effects a publish attempt can perform. -/
inductive MQTTAction where
  | send (topic payload : String)
  | logWarning (msg : String)
deriving DecidableEq, Repr

/-- `MQTTClient.__init__`: starts with `connected = False`. -/
def MQTTClient.init : MQTTState := ⟨false⟩

/-- `MQTTClient._on_connect`: `self.connected = (rc == 0)`. -/
def MQTTClient.on_connect (_s : MQTTState) (rc : ℤ) : MQTTState :=
  ⟨decide (rc = 0)⟩

/-- `MQTTClient._on_disconnect`: `self.connected = False`. -/
def MQTTClient.on_disconnect (_s : MQTTState) : MQTTState := ⟨false⟩

/-- `MQTTClient.publish`: send only when connected, otherwise log a
warning and do nothing; the flag is never written here. -/
def MQTTClient.publish (s : MQTTState) (topic payload : String) :
    MQTTState × List MQTTAction :=
  if s.connected then (s, [.send topic payload])
  else (s, [.logWarning "MQTT not connected, skipping publish"])

/-- One iteration of `backend.py`'s `data_processor` loop, viewed through
the queue it drains: an empty queue means the loop just sleeps; otherwise
`data_queue.get()` removes exactly the oldest entry (FIFO), which is
converted and persisted/published, the newer entries staying queued. -/
def data_processor_cycle (q : List RawData) :
    Option (Except PyError Calibrated × List RawData) :=
  match q with
  | [] => none
  | r :: rest => some (convert_values r, rest)

/-- The header row `ensure_csv` writes. -/
def csvHeader : List String :=
  ["timestamp", "Temperature", "Humidity", "CO2", "Oxygen",
   "UV Index", "Solar Radiation", "Air Quality", "GSR",
   "Atmospheric Pressure"]

/-- `backend.py`'s `ensure_csv`: the CSV file state is `none` when the
file does not exist, `some rows` otherwise.  If the file is absent it is
created holding exactly the header row; an existing file is untouched
(and no error is raised in either case — the function is total). -/
def ensure_csv : Option (List (List String)) → Option (List (List String))
  | none => some [csvHeader]
  | some rows => some rows

/-- Number of copies of the header row a file state holds. -/
def headerCount : Option (List (List String)) → ℕ
  | none => 0
  | some rows => rows.count csvHeader

/-- A parsed JSON value, restricted to what this device's lines contain:
flat objects whose values are integers or plain strings. -/
inductive Json where
  | num (n : ℤ)
  | str (s : String)
  | obj (members : List (String × Json))

/-- Drop leading spaces (the only whitespace a stripped serial line can
still contain between tokens). -/
def skipWs : List Char → List Char
  | [] => []
  | c :: cs => if c = ' ' then skipWs cs else c :: cs

/-- Scan the body of a double-quoted string up to its closing quote
(escape sequences do not occur in this device's channel names). -/
def scanStringBody : List Char → Option (List Char × List Char)
  | [] => none
  | c :: cs =>
    if c = '"' then some ([], cs)
    else
      match scanStringBody cs with
      | none => none
      | some (s, r) => some (c :: s, r)

/-- Parse a double-quoted string literal. -/
def parseStringLit : List Char → Option (String × List Char)
  | '"' :: cs =>
    match scanStringBody cs with
    | none => none
    | some (s, r) => some (String.mk s, r)
  | _ => none

/-- Split off a maximal run of decimal digits. -/
def takeDigits : List Char → List Char × List Char
  | [] => ([], [])
  | c :: cs =>
    if c.isDigit then
      let (ds, r) := takeDigits cs
      (c :: ds, r)
    else ([], c :: cs)

/-- Numeric value of a digit run. -/
def digitsToNat (ds : List Char) : ℕ :=
  ds.foldl (fun n c => 10 * n + (c.toNat - 48)) 0

/-- Parse an integer literal with optional leading minus sign. -/
def parseIntLit : List Char → Option (ℤ × List Char)
  | '-' :: cs =>
    let (ds, r) := takeDigits cs
    if ds = [] then none else some (-(digitsToNat ds : ℤ), r)
  | cs =>
    let (ds, r) := takeDigits cs
    if ds = [] then none else some ((digitsToNat ds : ℤ), r)

/-- Parse one member value: a string literal or an integer. -/
def parseValue (cs : List Char) : Option (Json × List Char) :=
  match parseStringLit cs with
  | some (s, r) => some (.str s, r)
  | none =>
    match parseIntLit cs with
    | some (n, r) => some (.num n, r)
    | none => none

/-- Parse the `"key": value` members of an object, comma-separated, up to
and including the closing brace.  The fuel argument only bounds the
recursion; callers pass more fuel than there are characters. -/
def parseMembers : ℕ → List Char → Option (List (String × Json) × List Char)
  | 0, _ => none
  | fuel + 1, cs =>
    match parseStringLit (skipWs cs) with
    | none => none
    | some (k, cs1) =>
      match skipWs cs1 with
      | ':' :: cs2 =>
        match parseValue (skipWs cs2) with
        | none => none
        | some (v, cs3) =>
          match skipWs cs3 with
          | ',' :: cs4 =>
            match parseMembers fuel cs4 with
            | none => none
            | some (ms, r) => some ((k, v) :: ms, r)
          | '}' :: cs4 => some ([(k, v)], cs4)
          | _ => none
      | _ => none

/-- Model of `json.loads` on the device's line language (a flat JSON
object with string keys and integer or string values): `some` the parsed
object when the whole line is consumed, `none` when parsing raises
`json.JSONDecodeError`. -/
def json_loads (line : String) : Option Json :=
  match skipWs line.data with
  | '{' :: cs =>
    match skipWs cs with
    | '}' :: r => if skipWs r = [] then some (.obj []) else none
    | cs1 =>
      match parseMembers (cs1.length + 1) cs1 with
      | none => none
      | some (ms, r) => if skipWs r = [] then some (.obj ms) else none
  | _ => none

/-- `line.startswith("{")`, on the line's characters. -/
def startsWithBrace (line : String) : Bool :=
  match line.data with
  | '{' :: _ => true
  | _ => false

/-- `line.endswith("}")`, on the line's characters. -/
def endsWithBrace (line : String) : Bool :=
  match line.data.getLast? with
  | some '}' => true
  | _ => false

/-- The body of `serial_reader`'s loop for one (already stripped) line:
empty lines are skipped, lines not starting with `{` or not ending with
`}` are logged and skipped, lines `json.loads` rejects are logged and
skipped; everything else is enqueued (`some` = the enqueued object). -/
def serial_reader_accepts (line : String) : Option Json :=
  if line.data = [] then none
  else if startsWithBrace line && endsWithBrace line then json_loads line
  else none

/-- The seven channel keys `convert_values` reads. -/
def channelNames : List String :=
  ["oxygen", "uv", "pressure", "solar", "temp_humidity", "co2",
   "air_quality"]

/-- Whether a JSON value is numeric. -/
def isNumeric : Json → Bool
  | .num _ => true
  | _ => false

/-- The acceptance condition the spec states for the transport boundary:
a flat mapping whose keys are exactly the fixed channel names and whose
values are all numeric. -/
def isChannelMapping (j : Json) : Bool :=
  match j with
  | .obj ms =>
    (channelNames.all fun n =>
      match ms.lookup n with
      | some v => isNumeric v
      | none => false) &&
    (ms.all fun kv => channelNames.contains kv.1 && isNumeric kv.2)
  | _ => false

end Backend

namespace Sim

/-- `tempCodeRunnerFile.py`'s `THRESHOLDS` table, keys verbatim —
note the first key lacks the closing parenthesis. -/
def THRESHOLDS : List (String × ℚ) :=
  [("Temperature (°C", 30), ("CO2 (ppm)", 1000), ("Air Quality (AQI)", 200)]

/-- `tempCodeRunnerFile.py`'s `check_threshold(sensor_name, value)`:
`None` → `"ERROR"`; a present value above the sensor's threshold (when the
name has one) → `"ALERT"`; otherwise `"Normal"`. -/
def check_threshold (sensor_name : String) (value : Option ℚ) : String :=
  match value with
  | none => "ERROR"
  | some v =>
    match THRESHOLDS.lookup sensor_name with
    | some t => if t < v then "ALERT" else "Normal"
    | none => "Normal"

/-- The nine sensor names of the simulated pipeline's `sensors` list. -/
def sensorNames : List String :=
  ["Temperature (°C)", "Humidity (%)", "CO2 (ppm)", "Oxygen (O2 %)",
   "UV Index", "Solar Radiation (W/m²)", "Air Quality (AQI)", "GSR",
   "Atmospheric Pressure (hPa)"]

/-- A queue entry of the simulated pipeline: `(datetime.now(), snapshot)`
where the snapshot maps each sensor name to its reading (`None` after a
failed read). -/
structure SimEntry where
  ts : ℕ
  snapshot : List (String × Option ℚ)
deriving DecidableEq

/-- One iteration of `tempCodeRunnerFile.py`'s `data_processor` loop: it
drains every queued entry into `batch` (FIFO, so `batch` is the queue in
arrival order), sleeps when the batch is empty, and otherwise takes
`batch[-1]` — the most recently enqueued entry — as the one reading it
prints, persists and publishes; every older entry is dropped. -/
def data_processor_cycle (q : List SimEntry) :
    Option (SimEntry × List SimEntry) :=
  match q.getLast? with
  | none => none
  | some e => some (e, [])

end Sim

namespace Backend

/-- On a snapshot whose seven channels are all present and numeric,
`convert_values` succeeds and returns exactly the nine rounded linear
scalings of the clamped raw values.  Holds by unfolding the definition. -/
theorem convert_values_num (o u p s th c a : ℤ) :
    convert_values ⟨some (.num o), some (.num u), some (.num p),
        some (.num s), some (.num th), some (.num c), some (.num a)⟩ =
      .ok ⟨round2 ((pyClamp th : ℚ) / 1023 * 50),
           round2 ((pyClamp th : ℚ) / 1023 * 100),
           round2 ((pyClamp c : ℚ) / 1023 * 2000),
           round2 ((pyClamp o : ℚ) / 1023 * 21),
           round2 ((pyClamp u : ℚ) / 1023 * 11),
           round2 ((pyClamp s : ℚ) / 1023 * 1200),
           round2 ((pyClamp a : ℚ) / 1023 * 500),
           round2 ((pyClamp s : ℚ) / 1023 * 100),
           round2 ((pyClamp p : ℚ) / 1023 * 1100)⟩ := rfl

/-- `Rat.floor` agrees with the ambient `Int.floor` on `ℚ`. -/
theorem ratFloor_eq_intFloor (q : ℚ) : q.floor = ⌊q⌋ := by
  rw [Rat.floor_def', Rat.floor_def]

/-- `round2` written through Mathlib's `round`. -/
theorem round2_eq_round (q : ℚ) : round2 q = (round (q * 100) : ℚ) / 100 := by
  rw [round2, ratFloor_eq_intFloor, round_eq]

/-- Rounding the `1200`- and `100`-scalings of a common value to two
decimals keeps them within `13/200` of the exact `12 :` `1` ratio. -/
theorem round2_ratio_bound (y : ℚ) :
    |round2 (y * 1200) - 12 * round2 (y * 100)| ≤ 13 / 200 := by
  rw [round2_eq_round, round2_eq_round]
  have h1 : y * 1200 * 100 = 12 * (y * 100 * 100) := by ring
  rw [h1]
  set t : ℚ := y * 100 * 100 with ht
  have ha : |12 * t - (round (12 * t) : ℚ)| ≤ 1 / 2 := abs_sub_round (12 * t)
  have hb : |t - (round t : ℚ)| ≤ 1 / 2 := abs_sub_round t
  have key : |(round (12 * t) : ℚ) - 12 * (round t : ℚ)| ≤ 13 / 2 := by
    have expand : (round (12 * t) : ℚ) - 12 * (round t : ℚ) =
        -(12 * t - (round (12 * t) : ℚ)) + 12 * (t - (round t : ℚ)) := by ring
    rw [expand]
    calc |-(12 * t - (round (12 * t) : ℚ)) + 12 * (t - (round t : ℚ))|
        ≤ |-(12 * t - (round (12 * t) : ℚ))| + |12 * (t - (round t : ℚ))| :=
          abs_add _ _
      _ = |12 * t - (round (12 * t) : ℚ)| + 12 * |t - (round t : ℚ)| := by
          rw [abs_neg, abs_mul]
          norm_num
      _ ≤ 1 / 2 + 12 * (1 / 2) := by
          have := mul_le_mul_of_nonneg_left hb (by norm_num : (0:ℚ) ≤ 12)
          linarith
      _ = 13 / 2 := by norm_num
  have hsplit : (round (12 * t) : ℚ) / 100 - 12 * ((round t : ℚ) / 100) =
      ((round (12 * t) : ℚ) - 12 * (round t : ℚ)) / 100 := by ring
  rw [hsplit, abs_div]
  rw [show |(100 : ℚ)| = 100 from by norm_num]
  linarith

end Backend

/-- C1: running `convert_values` on the injected snapshot
`{oxygen:512, uv:93, pressure:465, solar:850, temp_humidity:700, co2:300,
air_quality:100}` does NOT return the spec's expected reading: the spec's
values for CO2 (586.12), Solar Radiation (996.09), GSR (83.01) and
Atmospheric Pressure (499.76) disagree with `(clamped_raw / 1023) *
channel_max` rounded to 2 decimals. -/
theorem C1_counterexample :
    Backend.convert_values Backend.c1_input ≠ .ok Backend.c1_claimed := by
  intro hcon
  simp only [Backend.c1_input] at hcon
  rw [Backend.convert_values_num] at hcon
  have h := congrArg Backend.Calibrated.co2 (Except.ok.inj hcon)
  norm_num [Backend.pyClamp, Backend.round2, Rat.floor,
    Backend.c1_claimed] at h

/-- C1 (amended): on the injected snapshot, `convert_values` returns
exactly `{Temperature:34.21, Humidity:68.43, CO2:586.51, Oxygen:10.51,
UV Index:1.0, Solar Radiation:997.07, Air Quality:48.88, GSR:83.09,
Atmospheric Pressure:500.00}`, each value being `(clamped_raw / 1023) *
channel_max` rounded to 2 decimal places. -/
theorem C1_convert_values_scenario :
    Backend.convert_values Backend.c1_input = .ok Backend.c1_actual := by
  simp only [Backend.c1_input]
  rw [Backend.convert_values_num]
  norm_num [Backend.pyClamp, Backend.round2, Rat.floor, Backend.c1_actual,
    Backend.Calibrated.mk.injEq]

/-- C2: contrary to the spec, `convert_values` raises on a snapshot with a
non-numeric or absent channel instead of producing a sentinel reading: a
non-numeric `oxygen` makes `calibrate` return `None` and the later
`(oxy / 1023)` raise `TypeError`; an absent `oxygen` key makes
`data["oxygen"]` raise `KeyError`. -/
theorem C2_convert_values_raises :
    Backend.convert_values Backend.c2_nonnum_input = .error .typeError ∧
    Backend.convert_values Backend.c2_absent_input = .error .keyError :=
  ⟨rfl, rfl⟩

/-- C3: `backend.py`'s processor does not implement latest-wins: with the
queue holding `[burst_first, burst_last]` (oldest first), one cycle
processes and persists the conversion of `burst_first` — the FIRST
enqueued snapshot — leaves `burst_last` queued, and the two conversions
differ, so the persisted reading is not the calibration of the last
snapshot enqueued. -/
theorem C3_counterexample :
    Backend.data_processor_cycle [Backend.burst_first, Backend.burst_last] =
      some (Backend.convert_values Backend.burst_first,
            [Backend.burst_last]) ∧
    Backend.convert_values Backend.burst_first ≠
      Backend.convert_values Backend.burst_last := by
  refine ⟨rfl, ?_⟩
  intro h
  simp only [Backend.burst_first, Backend.burst_last] at h
  rw [Backend.convert_values_num, Backend.convert_values_num] at h
  have h2 := congrArg Backend.Calibrated.temperature (Except.ok.inj h)
  norm_num [Backend.pyClamp, Backend.round2, Rat.floor] at h2

/-- C3 (amended): only the simulated pipeline's processor implements
latest-wins — one cycle on a non-empty queue keeps exactly the most
recently enqueued entry and discards all older ones; the live backend's
processor instead dequeues exactly one entry per cycle, the OLDEST
(FIFO), persists its calibration and leaves the newer entries queued. -/
theorem C3_latest_wins_policies (front : List Sim.SimEntry) (e : Sim.SimEntry)
    (r : Backend.RawData) (rest : List Backend.RawData) :
    Sim.data_processor_cycle (front ++ [e]) = some (e, []) ∧
    Backend.data_processor_cycle (r :: rest) =
      some (Backend.convert_values r, rest) := by
  refine ⟨?_, rfl⟩
  simp [Sim.data_processor_cycle, List.getLast?_concat]

/-- C5: for integer raw values, `calibrate` returns a value in
`[0, 1023]`, is monotone non-decreasing, and is invariant under first
clamping its argument into `[0, 1023]`. -/
theorem C5_calibrate_clamped_monotone (m n : ℤ) (hmn : m ≤ n) :
    (∀ a, Backend.calibrate (.num m) = some a → 0 ≤ a ∧ a ≤ 1023) ∧
    (∀ a b, Backend.calibrate (.num m) = some a →
      Backend.calibrate (.num n) = some b → a ≤ b) ∧
    Backend.calibrate (.num n) =
      Backend.calibrate (.num (max 0 (min 1023 n))) := by
  simp only [Backend.calibrate, Backend.pyClamp, Option.some.injEq]
  refine ⟨?_, ?_, ?_⟩
  · intro a ha
    split_ifs at ha <;> omega
  · intro a b ha hb
    split_ifs at ha hb <;> omega
  · split_ifs <;> omega

/-- C5 witness: the guarantees of `C5_calibrate_clamped_monotone` at the
concrete pair `m = -5`, `n = 2000`. -/
theorem C5_witness :
    (∀ a, Backend.calibrate (.num (-5)) = some a → 0 ≤ a ∧ a ≤ 1023) ∧
    (∀ a b, Backend.calibrate (.num (-5)) = some a →
      Backend.calibrate (.num 2000) = some b → a ≤ b) ∧
    Backend.calibrate (.num 2000) =
      Backend.calibrate (.num (max 0 (min 1023 2000))) :=
  C5_calibrate_clamped_monotone (-5) 2000 (by decide)

/-- C4: rounding to 2 decimals breaks the exact `12 ×` relation between
Solar Radiation and GSR: with raw `solar = 1` the outputs are `1.17` and
`0.1`, and `1.17 ≠ 12 * 0.1 = 1.2`. -/
theorem C4_counterexample :
    Backend.convert_values Backend.solar_one_input =
      .ok Backend.solar_one_output ∧
    Backend.solar_one_output.solarRadiation ≠
      12 * Backend.solar_one_output.gsr := by
  constructor
  · simp only [Backend.solar_one_input]
    rw [Backend.convert_values_num]
    norm_num [Backend.pyClamp, Backend.round2, Rat.floor,
      Backend.solar_one_output, Backend.Calibrated.mk.injEq]
  · norm_num [Backend.solar_one_output]

/-- C4 (amended): whenever `convert_values` succeeds, Solar Radiation and
GSR are the `1200`- and `100`-scalings of one common value derived from
the shared raw `solar` channel — so they stand in the exact `12 ×` ratio
before rounding — and after each is rounded to 2 decimal places they
satisfy `|Solar Radiation − 12 × GSR| ≤ 13/200`. -/
theorem C4_solar_gsr_same_channel (d : Backend.RawData) :
    match Backend.convert_values d with
    | .ok out =>
      (∃ y : ℚ, out.solarRadiation = Backend.round2 (y * 1200) ∧
        out.gsr = Backend.round2 (y * 100)) ∧
      |out.solarRadiation - 12 * out.gsr| ≤ 13 / 200
    | .error _ => True := by
  obtain ⟨o, u, p, s, th, c, a⟩ := d
  cases o with
  | none => exact trivial
  | some fo =>
  cases u with
  | none => exact trivial
  | some fu =>
  cases p with
  | none => exact trivial
  | some fp =>
  cases s with
  | none => exact trivial
  | some fs =>
  cases th with
  | none => exact trivial
  | some fth =>
  cases c with
  | none => exact trivial
  | some fc =>
  cases a with
  | none => exact trivial
  | some fa =>
  cases fth with
  | nonNum => exact trivial
  | num nth =>
  cases fc with
  | nonNum => exact trivial
  | num nc =>
  cases fo with
  | nonNum => exact trivial
  | num no =>
  cases fu with
  | nonNum => exact trivial
  | num nu =>
  cases fs with
  | nonNum => exact trivial
  | num ns =>
  cases fa with
  | nonNum => exact trivial
  | num na =>
  cases fp with
  | nonNum => exact trivial
  | num np =>
  exact ⟨⟨(Backend.pyClamp ns : ℚ) / 1023, rfl, rfl⟩,
    Backend.round2_ratio_bound ((Backend.pyClamp ns : ℚ) / 1023)⟩

/-- C6: an unavailable reading (`None`) always gets the `"ERROR"` verdict,
and a present numeric reading never does — `"Normal"`/`"ALERT"` arise only
from present values. -/
theorem C6_unavailable_is_error (name : String) (v : ℚ) :
    Sim.check_threshold name none = "ERROR" ∧
    Sim.check_threshold name (some v) ≠ "ERROR" := by
  refine ⟨rfl, ?_⟩
  simp only [Sim.check_threshold]
  cases Sim.THRESHOLDS.lookup name with
  | none => simp
  | some t =>
    show ¬(if t < v then "ALERT" else "Normal") = "ERROR"
    split <;> simp

/-- C7: `serial_reader` enqueues the line `"{}"` — it begins with `{`,
ends with `}` and parses as JSON — even though it is not a mapping of the
fixed channel names to numeric values, refuting the claim that only such
mappings are enqueued. -/
theorem C7_counterexample :
    Backend.serial_reader_accepts "{}" = some (.obj []) ∧
    Backend.isChannelMapping (.obj []) = false := ⟨rfl, rfl⟩

/-- C7 (amended): a line is enqueued only if it begins with `{`, ends with
`}` and `json.loads` parses it; no validation of channel names or numeric
values happens before enqueueing. -/
theorem C7_accepts_only_braced_json (line : String) (j : Backend.Json)
    (h : Backend.serial_reader_accepts line = some j) :
    Backend.startsWithBrace line = true ∧ Backend.endsWithBrace line = true ∧
    Backend.json_loads line = some j := by
  simp only [Backend.serial_reader_accepts] at h
  by_cases h1 : line.data = []
  · rw [if_pos h1] at h
    cases h
  · rw [if_neg h1] at h
    by_cases h2 : (Backend.startsWithBrace line &&
        Backend.endsWithBrace line) = true
    · rw [if_pos h2] at h
      rw [Bool.and_eq_true] at h2
      exact ⟨h2.1, h2.2, h⟩
    · rw [if_neg h2] at h
      cases h

/-- C7 witness: the guarantees of `C7_accepts_only_braced_json` at the
concrete accepted line `"{}"`. -/
theorem C7_witness :
    Backend.startsWithBrace "{}" = true ∧ Backend.endsWithBrace "{}" = true ∧
    Backend.json_loads "{}" = some (.obj []) :=
  C7_accepts_only_braced_json "{}" (.obj []) rfl

/-- C8: `ensure_csv` is idempotent, leaves an existing file unchanged
without error, and starting from a missing file two calls produce exactly
one header row. -/
theorem C8_ensure_csv_idempotent (s : Option (List (List String)))
    (rows : List (List String)) :
    Backend.ensure_csv (Backend.ensure_csv s) = Backend.ensure_csv s ∧
    Backend.ensure_csv (some rows) = some rows ∧
    Backend.headerCount (Backend.ensure_csv (Backend.ensure_csv none)) = 1 := by
  refine ⟨?_, rfl, by decide⟩
  cases s <;> rfl

/-- C9: publishing while disconnected performs no send, leaves the state
unchanged and only logs a warning; the `connected` flag starts false, is
true after a connect callback exactly when `rc = 0`, and a disconnect
callback resets it so the next publish again only warns. -/
theorem C9_publish_disconnected (t p : String) (s : Backend.MQTTState)
    (rc : ℤ) :
    Backend.MQTTClient.init.connected = false ∧
    Backend.MQTTClient.publish ⟨false⟩ t p =
      (⟨false⟩, [.logWarning "MQTT not connected, skipping publish"]) ∧
    ((Backend.MQTTClient.on_connect s rc).connected = true ↔ rc = 0) ∧
    (Backend.MQTTClient.on_disconnect s).connected = false ∧
    Backend.MQTTClient.publish (Backend.MQTTClient.on_disconnect s) t p =
      (Backend.MQTTClient.on_disconnect s,
       [.logWarning "MQTT not connected, skipping publish"]) := by
  refine ⟨rfl, rfl, ?_, rfl, rfl⟩
  simp [Backend.MQTTClient.on_connect]

/-- C10: among the simulated pipeline's sensor names only `"CO2 (ppm)"`
and `"Air Quality (AQI)"` can ever receive the `"ALERT"` verdict, and the
quantity named `"Temperature (°C)"` always gets `"Normal"` on numeric
readings, because the threshold table's key is the different string
`"Temperature (°C"`. -/
theorem C10_temperature_never_alert (name : String) (v w : ℚ)
    (hmem : name ∈ Sim.sensorNames)
    (halert : Sim.check_threshold name (some v) = "ALERT") :
    (name = "CO2 (ppm)" ∨ name = "Air Quality (AQI)") ∧
    Sim.check_threshold "Temperature (°C)" (some w) = "Normal" := by
  refine ⟨?_, rfl⟩
  simp only [Sim.sensorNames, List.mem_cons, List.not_mem_nil, or_false]
    at hmem
  rcases hmem with rfl | rfl | rfl | rfl | rfl | rfl | rfl | rfl | rfl <;>
    first
      | exact Or.inl rfl
      | exact Or.inr rfl
      | simp [Sim.check_threshold, Sim.THRESHOLDS, List.lookup] at halert

/-- C10 witness: the guarantees of `C10_temperature_never_alert` at the
alerting sensor `"CO2 (ppm)"` with reading `2000`. -/
theorem C10_witness :
    ("CO2 (ppm)" = "CO2 (ppm)" ∨ "CO2 (ppm)" = "Air Quality (AQI)") ∧
    Sim.check_threshold "Temperature (°C)" (some 2000) = "Normal" :=
  C10_temperature_never_alert "CO2 (ppm)" 2000 2000 (by decide) (by decide)
